import Mathlib

/-!
Shallow embedding of `src/main.pyw` (MRMap-GPS-Connector): NMEA sentence
filtering and parsing, haversine distance, the bounded-retry HTTP dispatch,
and one iteration of the listening loop, together with theorems settling the
specification claims about them.

Python strings are modelled as `String`/`List Char`, Python floats as exact
rationals (`ℚ`) where the code only does field parsing and arithmetic on
decimal literals, and as real numbers (`ℝ`) where the code calls into `math`
(trigonometry in the haversine formula, `time.time()` values).
-/

set_option maxRecDepth 4000

namespace MRMap

/-- The whitespace characters stripped by Python `str.strip()` and by the
`float` built-in before parsing. -/
def pyWhitespaceChar (c : Char) : Bool :=
  c = ' ' || c = '\t' || c = '\n' || c = '\r' || c = '\x0B' || c = '\x0C'

/-- Python `str.strip()` on a character list: drop leading and trailing
whitespace. -/
def pyStripList (cs : List Char) : List Char :=
  ((cs.dropWhile pyWhitespaceChar).reverse.dropWhile pyWhitespaceChar).reverse

/-- Python `str.startswith(pre)`: the first `pre.length` characters equal
`pre`. -/
def pyStartsWithList (cs pre : List Char) : Bool :=
  cs.take pre.length == pre

/-- Python `str.split(sep)` for a one-character separator: splits on every
occurrence, keeping empty pieces (so the result is never empty). -/
def pySplit (sep : Char) : List Char → List (List Char)
  | [] => [[]]
  | c :: rest =>
    match pySplit sep rest with
    | [] => [[]]
    | g :: gs => if c = sep then [] :: g :: gs else (c :: g) :: gs

/-- Numeric value of a digit string, most significant first. -/
def digitsVal (cs : List Char) : ℕ :=
  cs.foldl (fun acc c => 10 * acc + (c.toNat - 48)) 0

/-- Mantissa part of the Python `float` built-in: digits, optionally followed
by a dot and more digits, with at least one digit overall; `sign` is the
already-consumed sign. -/
def pyFloatCore (sign : ℚ) (u : List Char) : Option ℚ :=
  let intPart := u.takeWhile Char.isDigit
  let rest := u.dropWhile Char.isDigit
  match rest with
  | [] => if intPart.isEmpty then none else some (sign * (digitsVal intPart : ℚ))
  | d :: frac =>
    if d = '.' then
      if frac.all Char.isDigit && !(intPart.isEmpty && frac.isEmpty) then
        some (sign * ((digitsVal intPart : ℚ) + (digitsVal frac : ℚ) / (10 : ℚ) ^ frac.length))
      else none
    else none

/-- Modelled Python built-in `float(s)` on the plain decimal literals the
NMEA fields use: optional surrounding whitespace, optional sign, digits with
an optional fractional part. (The exotic inputs Python additionally accepts
— exponents, `inf`/`nan`, digit-group underscores — are rejected; no claim
exercises them.) The value is kept as an exact rational. -/
def pyFloatList (cs : List Char) : Option ℚ :=
  match pyStripList cs with
  | [] => pyFloatCore 1 []
  | c :: rest =>
    if c = '-' then pyFloatCore (-1) rest
    else if c = '+' then pyFloatCore 1 rest
    else pyFloatCore 1 (c :: rest)

/-- The sentence identifier the listener selects: `"$GPGGA"`. -/
def gpggaTag : List Char := "$GPGGA".toList

/-- `filter_nmea_sentence`, list level: strip the datagram, split into lines,
return the first line starting with `"$GPGGA"`, or the empty string. -/
def filterList (cs : List Char) : List Char :=
  let nmea_lines := pySplit '\n' (pyStripList cs)
  (nmea_lines.find? (fun line => pyStartsWithList line gpggaTag)).getD []

/-- `filter_nmea_sentence` from `src/main.pyw`. -/
def filter_nmea_sentence (sentence : String) : String :=
  ⟨filterList sentence.toList⟩

/-- The supported-sentence branch of `parse_nmea_sentence`: split on commas,
read latitude from field 2 (2-digit degrees + minutes, negated when field 3
is `"S"`), longitude from field 4 (3-digit degrees + minutes, negated when
field 5 is `"W"`), accuracy from field 8.  A missing field (`IndexError`) or
a non-numeric one (`ValueError`) yields `none`, as the `except` clause does. -/
def parseGPGGA (cs : List Char) : Option (ℚ × ℚ × ℚ) :=
  let data := pySplit ',' cs
  match data[2]?, data[3]?, data[4]?, data[5]?, data[8]? with
  | some f2, some f3, some f4, some f5, some f8 =>
    match pyFloatList (f2.take 2), pyFloatList (f2.drop 2),
          pyFloatList (f4.take 3), pyFloatList (f4.drop 3), pyFloatList f8 with
    | some latDeg, some latMin, some lonDeg, some lonMin, some accuracy =>
      let latitude := latDeg + latMin / 60
      let latitude := if f3 = ['S'] then -latitude else latitude
      let longitude := lonDeg + lonMin / 60
      let longitude := if f5 = ['W'] then -longitude else longitude
      some (latitude, longitude, accuracy)
    | _, _, _, _, _ => none
  | _, _, _, _, _ => none

/-- `parse_nmea_sentence` from `src/main.pyw`: `none` on the empty string, the
field-parsing branch on a `"$GPGGA"`-prefixed sentence, `none` (unsupported)
otherwise. -/
def parse_nmea_sentence (sentence : String) : Option (ℚ × ℚ × ℚ) :=
  let cs := sentence.toList
  if cs = [] then none
  else if pyStartsWithList cs gpggaTag then parseGPGGA cs
  else none

/-- Python `math.radians`. -/
noncomputable def radians (x : ℝ) : ℝ := x * Real.pi / 180

/-- Python `math.atan2` (C `atan2`) on real arguments. -/
noncomputable def atan2 (y x : ℝ) : ℝ :=
  if 0 < x then Real.arctan (y / x)
  else if x < 0 ∧ 0 ≤ y then Real.arctan (y / x) + Real.pi
  else if x < 0 ∧ y < 0 then Real.arctan (y / x) - Real.pi
  else if x = 0 ∧ 0 < y then Real.pi / 2
  else if x = 0 ∧ y < 0 then -(Real.pi / 2)
  else 0

/-- `haversine_distance` from `src/main.pyw`, on real coordinates. -/
noncomputable def haversine_distance (coord1 coord2 : ℝ × ℝ) : ℝ :=
  let lat1 := radians coord1.1
  let lon1 := radians coord1.2
  let lat2 := radians coord2.1
  let lon2 := radians coord2.2
  let dlat := lat2 - lat1
  let dlon := lon2 - lon1
  let a := Real.sin (dlat / 2) ^ 2 +
    Real.cos lat1 * Real.cos lat2 * Real.sin (dlon / 2) ^ 2
  let c := 2 * atan2 (Real.sqrt a) (Real.sqrt (1 - a))
  6371000 * c

/-- `has_moved` from `src/main.pyw`: the haversine distance strictly exceeds
the threshold. -/
noncomputable def has_moved (previous_position current_position : ℝ × ℝ)
    (threshold_distance : ℝ) : Prop :=
  haversine_distance previous_position current_position > threshold_distance

/-- How one POST attempt inside `make_api_request_with_retry` ends, following
the function's `except` clauses: a non-error response, an `HTTPError` raised
by `raise_for_status` (4xx/5xx), a `ConnectionError`, a `Timeout`, or any
other `RequestException`. -/
inductive AttemptOutcome where
  | success
  | httpError
  | connectionError
  | timeout
  | requestException
deriving DecidableEq

/-- Observable behaviour of one `make_api_request_with_retry` call: the
returned boolean, how many POST attempts were issued, and the log of
`time.sleep` backoff durations (in seconds) between attempts. -/
structure RetryResult where
  result : Bool
  attempts : ℕ
  sleeps : List ℚ
deriving DecidableEq

/-- `make_api_request_with_retry` from `src/main.pyw`, with the network
abstracted as the list of outcomes the successive POST attempts would have;
its length is the `max_retries` argument (the `for attempt in
range(1, max_retries + 1)` loop issues exactly one POST per element).
A `success`, an `HTTPError` or any other `RequestException` returns `True` on
that attempt; `ConnectionError`/`Timeout` fall through, sleeping the fixed
2-second backoff when `attempt < max_retries`; an exhausted loop returns
`False`. -/
def make_api_request_with_retry (outcomes : List AttemptOutcome) : RetryResult :=
  match outcomes with
  | [] => ⟨false, 0, []⟩
  | o :: rest =>
    match o with
    | .success => ⟨true, 1, []⟩
    | .httpError => ⟨true, 1, []⟩
    | .requestException => ⟨true, 1, []⟩
    | .connectionError | .timeout =>
      match rest with
      | [] => ⟨false, 1, []⟩
      | r :: rs =>
        let res := make_api_request_with_retry (r :: rs)
        ⟨res.result, res.attempts + 1, 2 :: res.sleeps⟩

/-- `VALID_FOR_DURATION` from `src/main.pyw`. -/
def VALID_FOR_DURATION : String := "360"

/-- The configuration values `main` reads from `config.ini` and threads
through the loop. -/
structure Config where
  radio_id : String
  token : String
  moving_time_limit : ℤ
  stationary_time_limit : ℤ
  distance_limit : ℤ

/-- The two mutable loop variables of `main`: `previous_position` and
`last_request_time`. -/
structure MotionState where
  previous_position : ℚ × ℚ
  last_request_time : ℝ

/-- The form-encoded POST payload built in `main`. -/
structure Payload where
  x : ℤ
  y : ℤ
  radioId : String
  validFor : String
  token : String

/-- What one iteration of the listening loop did: either it skipped the cycle
(no dispatch attempted), or it invoked `make_api_request_with_retry` with the
given payload and got the given boolean back. -/
inductive CycleOutcome where
  | skipped
  | dispatched (payload : Payload) (sent : Bool)

/-- An uncaught Python exception terminating the loop. -/
inductive PyError where
  | typeError
deriving DecidableEq

open Classical in
/-- One iteration of the `while True` loop body of `main` for a non-empty
datagram `data`.  External effects are inputs: `proj` is what
`convert_to_osgb36(latitude, longitude)` returns (`none` models its
exception handler returning `None`), `current_time` is the `time.time()`
sample taken before any dispatch, and `attempt` is how the single POST of
`make_api_request_with_retry(api_url, payload)` (called with its default
`max_retries=1`) would end.  The tuple assignment
`easting, northing = convert_to_osgb36(...)` raises an uncaught `TypeError`
when the function returned `None`, modelled as `.error .typeError`. -/
noncomputable def loopStep (cfg : Config) (st : MotionState) (data : String)
    (proj : Option (ℝ × ℝ)) (current_time : ℝ) (attempt : AttemptOutcome) :
    Except PyError (MotionState × CycleOutcome) :=
  match parse_nmea_sentence (filter_nmea_sentence data) with
  | none => .ok (st, .skipped)
  | some (latitude, longitude, accuracy) =>
    if accuracy ≤ 100 then
      match proj with
      | none => .error .typeError
      | some en =>
        let easting : ℤ := ⌊en.1⌋
        let northing : ℤ := ⌊en.2⌋
        let has_moved_flag : Prop :=
          has_moved ((st.previous_position.1 : ℝ), (st.previous_position.2 : ℝ))
            ((latitude : ℝ), (longitude : ℝ)) (cfg.distance_limit : ℝ)
        let time_since_last_request := current_time - st.last_request_time
        if has_moved_flag then
          if time_since_last_request ≥ (cfg.moving_time_limit : ℝ) then
            let payload : Payload :=
              ⟨easting, northing, cfg.radio_id, VALID_FOR_DURATION, cfg.token⟩
            if (make_api_request_with_retry [attempt]).result then
              .ok (⟨(latitude, longitude), current_time⟩, .dispatched payload true)
            else
              .ok (st, .dispatched payload false)
          else
            .ok (st, .skipped)
        else
          if time_since_last_request ≥ (cfg.stationary_time_limit : ℝ) then
            let payload : Payload :=
              ⟨easting, northing, cfg.radio_id, VALID_FOR_DURATION, cfg.token⟩
            if (make_api_request_with_retry [attempt]).result then
              .ok (⟨(latitude, longitude), current_time⟩, .dispatched payload true)
            else
              .ok (st, .dispatched payload false)
          else
            .ok (st, .skipped)
    else
      .ok (st, .skipped)

/-- A coordinate magnitude field in plain unsigned NMEA form: only digits and
dots. -/
def coordFieldOK (cs : List Char) : Bool :=
  cs.all (fun c => c.isDigit || c = '.')

/-- A GPGGA-shaped sentence: `parse_nmea_sentence` accepts it and its two
coordinate magnitude fields (comma-separated fields 2 and 4) are plain
unsigned decimal numerals. -/
def validGPGGAShape (s : String) : Bool :=
  (parse_nmea_sentence s).isSome &&
  coordFieldOK ((pySplit ',' s.toList)[2]?.getD []) &&
  coordFieldOK ((pySplit ',' s.toList)[4]?.getD [])

/-! ### Evaluation helpers for concrete sentences -/

theorem parse_nmea_sentence_eq_parseGPGGA (s : String)
    (h1 : s.toList ≠ []) (h2 : pyStartsWithList s.toList gpggaTag = true) :
    parse_nmea_sentence s = parseGPGGA s.toList := by
  simp only [parse_nmea_sentence]
  rw [if_neg h1, if_pos h2]

theorem parseGPGGA_fields (cs f2 f3 f4 f5 f8 : List Char)
    (latDeg latMin lonDeg lonMin accuracy : ℚ)
    (h2 : (pySplit ',' cs)[2]? = some f2) (h3 : (pySplit ',' cs)[3]? = some f3)
    (h4 : (pySplit ',' cs)[4]? = some f4) (h5 : (pySplit ',' cs)[5]? = some f5)
    (h8 : (pySplit ',' cs)[8]? = some f8)
    (g1 : pyFloatList (f2.take 2) = some latDeg) (g2 : pyFloatList (f2.drop 2) = some latMin)
    (g3 : pyFloatList (f4.take 3) = some lonDeg) (g4 : pyFloatList (f4.drop 3) = some lonMin)
    (g5 : pyFloatList f8 = some accuracy) :
    parseGPGGA cs = some
      ((if f3 = ['S'] then -(latDeg + latMin / 60) else latDeg + latMin / 60),
       (if f5 = ['W'] then -(lonDeg + lonMin / 60) else lonDeg + lonMin / 60),
       accuracy) := by
  simp only [parseGPGGA]
  rw [h2, h3, h4, h5, h8]
  dsimp only
  rw [g1, g2, g3, g4, g5]

theorem pyFloatCore_frac (sign : ℚ) (u intPart frac : List Char)
    (h1 : u.takeWhile Char.isDigit = intPart)
    (h2 : u.dropWhile Char.isDigit = '.' :: frac)
    (h3 : (frac.all Char.isDigit && !(intPart.isEmpty && frac.isEmpty)) = true) :
    pyFloatCore sign u =
      some (sign * ((digitsVal intPart : ℚ) + (digitsVal frac : ℚ) / (10 : ℚ) ^ frac.length)) := by
  simp only [pyFloatCore]
  rw [h1, h2]
  dsimp only
  rw [if_pos (show ('.' : Char) = '.' from rfl), if_pos h3]

theorem pyFloatCore_int (sign : ℚ) (u intPart : List Char)
    (h1 : u.takeWhile Char.isDigit = intPart)
    (h2 : u.dropWhile Char.isDigit = [])
    (h3 : intPart.isEmpty = false) :
    pyFloatCore sign u = some (sign * (digitsVal intPart : ℚ)) := by
  simp only [pyFloatCore]
  rw [h1, h2]
  dsimp only
  rw [h3]
  simp

theorem pyFloatList_unsigned (cs : List Char) (c : Char) (rest : List Char)
    (h : pyStripList cs = c :: rest) (hc1 : c ≠ '-') (hc2 : c ≠ '+') :
    pyFloatList cs = pyFloatCore 1 (c :: rest) := by
  simp only [pyFloatList]
  rw [h]
  dsimp only
  rw [if_neg hc1, if_neg hc2]

theorem pyFloatList_frac_eval (cs : List Char) (c : Char) (rest intPart frac : List Char)
    (n m k : ℕ) (q : ℚ)
    (h : pyStripList cs = c :: rest) (hc1 : c ≠ '-') (hc2 : c ≠ '+')
    (h1 : (c :: rest).takeWhile Char.isDigit = intPart)
    (h2 : (c :: rest).dropWhile Char.isDigit = '.' :: frac)
    (h3 : (frac.all Char.isDigit && !(intPart.isEmpty && frac.isEmpty)) = true)
    (hn : digitsVal intPart = n) (hm : digitsVal frac = m) (hk : frac.length = k)
    (hq : (n : ℚ) + (m : ℚ) / (10 : ℚ) ^ k = q) :
    pyFloatList cs = some q := by
  rw [pyFloatList_unsigned cs c rest h hc1 hc2,
    pyFloatCore_frac 1 (c :: rest) intPart frac h1 h2 h3, hn, hm, hk, one_mul, hq]

theorem pyFloatList_int_eval (cs : List Char) (c : Char) (rest intPart : List Char)
    (n : ℕ) (q : ℚ)
    (h : pyStripList cs = c :: rest) (hc1 : c ≠ '-') (hc2 : c ≠ '+')
    (h1 : (c :: rest).takeWhile Char.isDigit = intPart)
    (h2 : (c :: rest).dropWhile Char.isDigit = [])
    (h3 : intPart.isEmpty = false)
    (hn : digitsVal intPart = n) (hq : (n : ℚ) = q) :
    pyFloatList cs = some q := by
  rw [pyFloatList_unsigned cs c rest h hc1 hc2,
    pyFloatCore_int 1 (c :: rest) intPart h1 h2 h3, hn, one_mul, hq]

/-- The standard GPGGA example datagram from the specification. -/
def data0 : String := "$GPGGA,123519,4807.038,N,01131.000,E,1,08,0.9,545.4,M,46.9,M,,*47"

theorem parse_data0 :
    parse_nmea_sentence data0 = some (481173 / 10000, 691 / 60, 9 / 10) := by
  have gf1 : pyFloatList ("4807.038".toList.take 2) = some 48 :=
    pyFloatList_int_eval _ '4' ['8'] ['4', '8'] 48 48
      (by decide) (by decide) (by decide) (by decide) (by decide) (by decide) (by decide)
      (by norm_num)
  have gf2 : pyFloatList ("4807.038".toList.drop 2) = some (7038 / 1000) :=
    pyFloatList_frac_eval _ '0' "7.038".toList ['0', '7'] ['0', '3', '8'] 7 38 3 (7038 / 1000)
      (by decide) (by decide) (by decide) (by decide) (by decide) (by decide) (by decide)
      (by decide) (by decide) (by norm_num)
  have gf3 : pyFloatList ("01131.000".toList.take 3) = some 11 :=
    pyFloatList_int_eval _ '0' "11".toList ['0', '1', '1'] 11 11
      (by decide) (by decide) (by decide) (by decide) (by decide) (by decide) (by decide)
      (by norm_num)
  have gf4 : pyFloatList ("01131.000".toList.drop 3) = some 31 :=
    pyFloatList_frac_eval _ '3' "1.000".toList ['3', '1'] ['0', '0', '0'] 31 0 3 31
      (by decide) (by decide) (by decide) (by decide) (by decide) (by decide) (by decide)
      (by decide) (by decide) (by norm_num)
  have gf5 : pyFloatList "0.9".toList = some (9 / 10) :=
    pyFloatList_frac_eval _ '0' ".9".toList ['0'] ['9'] 0 9 1 (9 / 10)
      (by decide) (by decide) (by decide) (by decide) (by decide) (by decide) (by decide)
      (by decide) (by decide) (by norm_num)
  rw [parse_nmea_sentence_eq_parseGPGGA data0 (by decide) (by decide),
    parseGPGGA_fields data0.toList "4807.038".toList "N".toList "01131.000".toList
      "E".toList "0.9".toList 48 (7038 / 1000) 11 31 (9 / 10)
      (by decide) (by decide) (by decide) (by decide) (by decide) gf1 gf2 gf3 gf4 gf5]
  norm_num
  decide

theorem filter_data0 : filter_nmea_sentence data0 = data0 := by decide

/-! ### Retry loop -/

/-- C3: when every one of the `n ≥ 1` POST attempts ends in a connection
failure or timeout, `make_api_request_with_retry` returns `False` after
exactly `n` attempts, with the fixed 2-second backoff slept between
consecutive attempts and not after the last one. -/
theorem C3_retry_exhaustion (outcomes : List AttemptOutcome)
    (hne : outcomes ≠ [])
    (hall : ∀ o ∈ outcomes,
      o = AttemptOutcome.connectionError ∨ o = AttemptOutcome.timeout) :
    make_api_request_with_retry outcomes =
      ⟨false, outcomes.length, List.replicate (outcomes.length - 1) 2⟩ := by
  induction outcomes with
  | nil => exact absurd rfl hne
  | cons o rest ih =>
    have ho := hall o (List.mem_cons_self o rest)
    cases rest with
    | nil => rcases ho with h | h <;> subst h <;> rfl
    | cons r rs =>
      have hrec := ih (List.cons_ne_nil r rs)
        (fun x hx => hall x (List.mem_cons_of_mem o hx))
      rcases ho with h | h <;> subst h <;>
        simp only [make_api_request_with_retry, hrec] <;>
        simp [List.replicate_succ]

/-- Witness for C3: three timed-out attempts yield `Failed` after 3 attempts
and two 2-second sleeps. -/
theorem C3_retry_exhaustion_witness :
    make_api_request_with_retry
        [AttemptOutcome.timeout, AttemptOutcome.timeout, AttemptOutcome.timeout] =
      ⟨false, 3, List.replicate 2 2⟩ :=
  C3_retry_exhaustion [AttemptOutcome.timeout, AttemptOutcome.timeout, AttemptOutcome.timeout]
    (by decide) (by decide)

/-- C4: an attempt that raises `HTTPError` (4xx/5xx) or any
`RequestException` other than `ConnectionError`/`Timeout` makes
`make_api_request_with_retry` return `True` immediately on that attempt,
regardless of how many attempts remain. -/
theorem C4_terminal_outcomes (pre rest : List AttemptOutcome) (o : AttemptOutcome)
    (hpre : ∀ p ∈ pre,
      p = AttemptOutcome.connectionError ∨ p = AttemptOutcome.timeout)
    (ho : o = AttemptOutcome.httpError ∨ o = AttemptOutcome.requestException) :
    make_api_request_with_retry (pre ++ o :: rest) =
      ⟨true, pre.length + 1, List.replicate pre.length 2⟩ := by
  induction pre with
  | nil => rcases ho with h | h <;> subst h <;> rfl
  | cons p ps ih =>
    have hp := hpre p (List.mem_cons_self p ps)
    have hrec := ih (fun x hx => hpre x (List.mem_cons_of_mem p hx))
    rcases hexp : ps ++ o :: rest with _ | ⟨r, rs⟩
    · exact absurd hexp (by simp)
    · rcases hp with h | h <;> subst h <;>
        rw [List.cons_append, hexp] <;>
        simp only [make_api_request_with_retry] <;>
        rw [← hexp, hrec] <;>
        simp [List.replicate_succ]

/-- Witness for C4: a timeout followed by an HTTP error stops with `Sent`
after 2 of the 3 configured attempts. -/
theorem C4_terminal_outcomes_witness :
    make_api_request_with_retry
        [AttemptOutcome.timeout, AttemptOutcome.httpError, AttemptOutcome.connectionError] =
      ⟨true, 2, List.replicate 1 2⟩ :=
  C4_terminal_outcomes [AttemptOutcome.timeout] [AttemptOutcome.connectionError]
    AttemptOutcome.httpError (by decide) (by decide)

/-! ### Haversine distance -/

/-- The haversine distance from any point to itself is zero: both angle
differences vanish, so `a = 0`, `atan2 (sqrt 0) (sqrt 1) = arctan 0 = 0`. -/
theorem haversine_distance_self (p : ℝ × ℝ) : haversine_distance p p = 0 := by
  simp [haversine_distance, atan2, Real.sqrt_zero, Real.sqrt_one, Real.arctan_zero,
    zero_lt_one]

/-- C8: `haversine_distance(p, p) = 0` for every position `p`. -/
theorem C8_haversine_identity (p : ℝ × ℝ) : haversine_distance p p = 0 :=
  haversine_distance_self p

/-! ### The listening loop -/

/-- A sample configuration for concrete loop evaluations. -/
def cfg0 : Config := ⟨"radio1", "token1", 10, 60, 50⟩

open Classical in
/-- Control-flow characterisation of an accepted cycle: once the datagram
parses and passes the accuracy gate and the projection succeeded, the loop
dispatches iff (moved and the moving timer expired) or (not moved and the
stationary timer expired), updating state exactly on a `True` dispatch
result. -/
theorem loopStep_accepted_eq (cfg : Config) (st : MotionState) (data : String)
    (en : ℝ × ℝ) (current_time : ℝ) (attempt : AttemptOutcome)
    (latitude longitude accuracy : ℚ)
    (hparse : parse_nmea_sentence (filter_nmea_sentence data) =
      some (latitude, longitude, accuracy))
    (hacc : accuracy ≤ 100) :
    loopStep cfg st data (some en) current_time attempt =
      if (haversine_distance ((st.previous_position.1 : ℝ), (st.previous_position.2 : ℝ))
            ((latitude : ℝ), (longitude : ℝ)) > (cfg.distance_limit : ℝ) ∧
          current_time - st.last_request_time ≥ (cfg.moving_time_limit : ℝ)) ∨
        (¬(haversine_distance ((st.previous_position.1 : ℝ), (st.previous_position.2 : ℝ))
            ((latitude : ℝ), (longitude : ℝ)) > (cfg.distance_limit : ℝ)) ∧
          current_time - st.last_request_time ≥ (cfg.stationary_time_limit : ℝ))
      then
        if (make_api_request_with_retry [attempt]).result then
          .ok (⟨(latitude, longitude), current_time⟩,
            .dispatched ⟨⌊en.1⌋, ⌊en.2⌋, cfg.radio_id, VALID_FOR_DURATION, cfg.token⟩ true)
        else
          .ok (st,
            .dispatched ⟨⌊en.1⌋, ⌊en.2⌋, cfg.radio_id, VALID_FOR_DURATION, cfg.token⟩ false)
      else
        .ok (st, .skipped) := by
  simp only [loopStep]
  rw [hparse]
  dsimp only
  rw [if_pos hacc]
  simp only [has_moved]
  by_cases hmv : haversine_distance
      ((st.previous_position.1 : ℝ), (st.previous_position.2 : ℝ))
      ((latitude : ℝ), (longitude : ℝ)) > (cfg.distance_limit : ℝ)
  · by_cases h1 : current_time - st.last_request_time ≥ (cfg.moving_time_limit : ℝ)
    · rw [if_pos hmv, if_pos h1, if_pos (Or.inl ⟨hmv, h1⟩)]
    · rw [if_pos hmv, if_neg h1,
        if_neg (by rintro (⟨_, hc⟩ | ⟨hc, _⟩) <;> [exact h1 hc; exact hc hmv])]
  · by_cases h2 : current_time - st.last_request_time ≥ (cfg.stationary_time_limit : ℝ)
    · rw [if_neg hmv, if_pos h2, if_pos (Or.inr ⟨hmv, h2⟩)]
    · rw [if_neg hmv, if_neg h2,
        if_neg (by rintro (⟨hc, _⟩ | ⟨_, hc⟩) <;> [exact hmv hc; exact h2 hc])]

open Classical in
/-- C2: for an accepted fix the loop dispatches iff (the haversine distance
from the previous reported position strictly exceeds `distance_limit` and
the elapsed time reaches `moving_time_limit`) or (the distance does not
exceed `distance_limit` and the elapsed time reaches
`stationary_time_limit`); otherwise the cycle is skipped with no dispatch. -/
theorem C2_dispatch_decision (cfg : Config) (st : MotionState) (data : String)
    (en : ℝ × ℝ) (current_time : ℝ) (attempt : AttemptOutcome)
    (latitude longitude accuracy : ℚ)
    (hparse : parse_nmea_sentence (filter_nmea_sentence data) =
      some (latitude, longitude, accuracy))
    (hacc : accuracy ≤ 100) :
    loopStep cfg st data (some en) current_time attempt =
      if (haversine_distance ((st.previous_position.1 : ℝ), (st.previous_position.2 : ℝ))
            ((latitude : ℝ), (longitude : ℝ)) > (cfg.distance_limit : ℝ) ∧
          current_time - st.last_request_time ≥ (cfg.moving_time_limit : ℝ)) ∨
        (¬(haversine_distance ((st.previous_position.1 : ℝ), (st.previous_position.2 : ℝ))
            ((latitude : ℝ), (longitude : ℝ)) > (cfg.distance_limit : ℝ)) ∧
          current_time - st.last_request_time ≥ (cfg.stationary_time_limit : ℝ))
      then
        if (make_api_request_with_retry [attempt]).result then
          .ok (⟨(latitude, longitude), current_time⟩,
            .dispatched ⟨⌊en.1⌋, ⌊en.2⌋, cfg.radio_id, VALID_FOR_DURATION, cfg.token⟩ true)
        else
          .ok (st,
            .dispatched ⟨⌊en.1⌋, ⌊en.2⌋, cfg.radio_id, VALID_FOR_DURATION, cfg.token⟩ false)
      else
        .ok (st, .skipped) :=
  loopStep_accepted_eq cfg st data en current_time attempt latitude longitude accuracy
    hparse hacc

/-- C1 (refuting the recovery claim): a cycle whose projection fails — the
fix parsed, passed the accuracy gate, and `convert_to_osgb36` returned
`None` — raises an uncaught `TypeError` at the tuple unpacking instead of
being skipped. -/
theorem C1_projection_failure_fatal :
    loopStep cfg0 ⟨(0, 0), 0⟩ data0 none 0 AttemptOutcome.success =
      .error .typeError := by
  simp only [loopStep]
  rw [filter_data0, parse_data0]
  dsimp only
  rw [if_pos (by norm_num : (9 / 10 : ℚ) ≤ 100)]

/-- C6: a cycle whose datagram fails to parse, or whose parsed accuracy
exceeds 100, ends skipped with the state unchanged — uniformly in the
projection result and the network outcome, so no projection and no dispatch
can be observed. -/
theorem C6_rejected_cycle_is_noop (cfg : Config) (st : MotionState) (data : String)
    (proj : Option (ℝ × ℝ)) (current_time : ℝ) (attempt : AttemptOutcome)
    (h : parse_nmea_sentence (filter_nmea_sentence data) = none ∨
      ∃ latitude longitude accuracy,
        parse_nmea_sentence (filter_nmea_sentence data) =
          some (latitude, longitude, accuracy) ∧ accuracy > 100) :
    loopStep cfg st data proj current_time attempt = .ok (st, .skipped) := by
  simp only [loopStep]
  rcases h with hp | ⟨latitude, longitude, accuracy, hp, hacc⟩
  · rw [hp]
  · rw [hp]
    dsimp only
    rw [if_neg (not_le.mpr hacc)]

/-- Witness for C6: the specification example — a datagram whose only line is
a `$GPGLL` sentence — is skipped and leaves the state unchanged. -/
theorem C6_rejected_cycle_is_noop_witness :
    loopStep cfg0 ⟨(0, 0), 0⟩ "$GPGLL,4916.45,N,12311.12,W,225444,A" none 0
        AttemptOutcome.success =
      .ok (⟨(0, 0), 0⟩, .skipped) :=
  C6_rejected_cycle_is_noop cfg0 ⟨(0, 0), 0⟩ "$GPGLL,4916.45,N,12311.12,W,225444,A"
    none 0 AttemptOutcome.success (Or.inl (by decide))

/-- `parse_nmea_sentence ∘ filter_nmea_sentence` on the specification's
example datagram. -/
theorem parse_filter_data0 :
    parse_nmea_sentence (filter_nmea_sentence data0) =
      some (481173 / 10000, 691 / 60, 9 / 10) := by
  rw [filter_data0]; exact parse_data0

open Classical in
/-- Witness for C2 at the example datagram with the previous position at the
origin and both timers freshly reset. -/
theorem C2_dispatch_decision_witness :
    loopStep cfg0 ⟨(0, 0), 0⟩ data0 (some (0, 0)) 0 AttemptOutcome.success =
      if (haversine_distance (((0 : ℚ) : ℝ), ((0 : ℚ) : ℝ))
            (((481173 / 10000 : ℚ) : ℝ), ((691 / 60 : ℚ) : ℝ)) > ((50 : ℤ) : ℝ) ∧
          (0 : ℝ) - 0 ≥ ((10 : ℤ) : ℝ)) ∨
        (¬(haversine_distance (((0 : ℚ) : ℝ), ((0 : ℚ) : ℝ))
            (((481173 / 10000 : ℚ) : ℝ), ((691 / 60 : ℚ) : ℝ)) > ((50 : ℤ) : ℝ)) ∧
          (0 : ℝ) - 0 ≥ ((60 : ℤ) : ℝ))
      then
        if (make_api_request_with_retry [AttemptOutcome.success]).result then
          .ok (⟨(481173 / 10000, 691 / 60), 0⟩,
            .dispatched ⟨⌊(0 : ℝ)⌋, ⌊(0 : ℝ)⌋, "radio1", VALID_FOR_DURATION, "token1"⟩ true)
        else
          .ok (⟨(0, 0), 0⟩,
            .dispatched ⟨⌊(0 : ℝ)⌋, ⌊(0 : ℝ)⌋, "radio1", VALID_FOR_DURATION, "token1"⟩ false)
      else
        .ok (⟨(0, 0), 0⟩, .skipped) :=
  C2_dispatch_decision cfg0 ⟨(0, 0), 0⟩ data0 (0, 0) 0 AttemptOutcome.success
    (481173 / 10000) (691 / 60) (9 / 10) parse_filter_data0 (by norm_num)

open Classical in
/-- Inversion of a non-crashing loop iteration: either the state is unchanged
and the cycle was skipped or ended in a failed dispatch, or the dispatch
returned `True` and both state fields were set to the parsed fix and the
pre-dispatch time sample. -/
theorem loopStep_ok_inv (cfg : Config) (st : MotionState) (data : String)
    (proj : Option (ℝ × ℝ)) (current_time : ℝ) (attempt : AttemptOutcome)
    (st' : MotionState) (out : CycleOutcome)
    (h : loopStep cfg st data proj current_time attempt = .ok (st', out)) :
    (st' = st ∧ (out = .skipped ∨ ∃ p, out = .dispatched p false)) ∨
    (∃ p latitude longitude accuracy,
      out = .dispatched p true ∧
      parse_nmea_sentence (filter_nmea_sentence data) =
        some (latitude, longitude, accuracy) ∧
      st' = ⟨(latitude, longitude), current_time⟩) := by
  simp only [loopStep] at h
  cases hp : parse_nmea_sentence (filter_nmea_sentence data) with
  | none =>
    rw [hp] at h
    dsimp only at h
    simp only [Except.ok.injEq, Prod.mk.injEq] at h
    exact Or.inl ⟨h.1.symm, Or.inl h.2.symm⟩
  | some trip =>
    obtain ⟨latitude, longitude, accuracy⟩ := trip
    rw [hp] at h
    dsimp only at h
    by_cases hacc : accuracy ≤ 100
    · rw [if_pos hacc] at h
      cases proj with
      | none =>
        dsimp only at h
        exact Except.noConfusion h
      | some en =>
        dsimp only at h
        split at h
        · split at h
          · split at h
            · simp only [Except.ok.injEq, Prod.mk.injEq] at h
              exact Or.inr ⟨_, latitude, longitude, accuracy, h.2.symm, rfl, h.1.symm⟩
            · simp only [Except.ok.injEq, Prod.mk.injEq] at h
              exact Or.inl ⟨h.1.symm, Or.inr ⟨_, h.2.symm⟩⟩
          · simp only [Except.ok.injEq, Prod.mk.injEq] at h
            exact Or.inl ⟨h.1.symm, Or.inl h.2.symm⟩
        · split at h
          · split at h
            · simp only [Except.ok.injEq, Prod.mk.injEq] at h
              exact Or.inr ⟨_, latitude, longitude, accuracy, h.2.symm, rfl, h.1.symm⟩
            · simp only [Except.ok.injEq, Prod.mk.injEq] at h
              exact Or.inl ⟨h.1.symm, Or.inr ⟨_, h.2.symm⟩⟩
          · simp only [Except.ok.injEq, Prod.mk.injEq] at h
            exact Or.inl ⟨h.1.symm, Or.inl h.2.symm⟩
    · rw [if_neg hacc] at h
      simp only [Except.ok.injEq, Prod.mk.injEq] at h
      exact Or.inl ⟨h.1.symm, Or.inl h.2.symm⟩

/-- C5: in every non-crashing iteration the two state fields are updated
together or not at all, and they are updated exactly when a dispatch was
attempted and returned `Sent`; in particular a `Failed` dispatch leaves both
unchanged. -/
theorem C5_atomic_state_update (cfg : Config) (st : MotionState) (data : String)
    (proj : Option (ℝ × ℝ)) (current_time : ℝ) (attempt : AttemptOutcome)
    (st' : MotionState) (out : CycleOutcome)
    (h : loopStep cfg st data proj current_time attempt = .ok (st', out)) :
    (st' = st ∧ ∀ p, out ≠ .dispatched p true) ∨
    (∃ p latitude longitude accuracy,
      out = .dispatched p true ∧
      parse_nmea_sentence (filter_nmea_sentence data) =
        some (latitude, longitude, accuracy) ∧
      st' = ⟨(latitude, longitude), current_time⟩) := by
  rcases loopStep_ok_inv cfg st data proj current_time attempt st' out h with
    ⟨h1, h2⟩ | hr
  · refine Or.inl ⟨h1, ?_⟩
    rcases h2 with h2 | ⟨p, h2⟩ <;> subst h2 <;> intro q hq <;> simp at hq
  · exact Or.inr hr

/-- Witness for C5: a datagram with no GPGGA line is skipped and the state
is untouched. -/
theorem C5_atomic_state_update_witness :
    ((⟨(0, 0), 0⟩ : MotionState) = ⟨(0, 0), 0⟩ ∧
      ∀ p, CycleOutcome.skipped ≠ .dispatched p true) ∨
    (∃ p latitude longitude accuracy,
      CycleOutcome.skipped = .dispatched p true ∧
      parse_nmea_sentence (filter_nmea_sentence "noise") =
        some (latitude, longitude, accuracy) ∧
      (⟨(0, 0), 0⟩ : MotionState) = ⟨(latitude, longitude), (0 : ℝ)⟩) :=
  C5_atomic_state_update cfg0 ⟨(0, 0), 0⟩ "noise" none 0 AttemptOutcome.success
    ⟨(0, 0), 0⟩ .skipped rfl

/-- C10: when a dispatch returns `Sent`, the stored `last_request_time` is
the `time.time()` sample taken before the dispatch began (the same value the
elapsed-time test used), so retries and backoff sleeps count toward the next
cycle's elapsed time. -/
theorem C10_predispatch_timestamp (cfg : Config) (st : MotionState) (data : String)
    (proj : Option (ℝ × ℝ)) (current_time : ℝ) (attempt : AttemptOutcome)
    (st' : MotionState) (p : Payload)
    (h : loopStep cfg st data proj current_time attempt = .ok (st', .dispatched p true)) :
    st'.last_request_time = current_time := by
  rcases loopStep_ok_inv cfg st data proj current_time attempt st' (.dispatched p true) h with
    ⟨h1, h2 | ⟨q, h2⟩⟩ | ⟨q, lat, lon, acc, hout, hp2, hst⟩
  · exact absurd h2 (by simp)
  · exact absurd h2 (by simp)
  · rw [hst]

/-- Witness for C10: a stationary `Sent` dispatch at time 1 stores 1. -/
theorem C10_predispatch_timestamp_witness :
    (⟨(481173 / 10000, 691 / 60), (1 : ℝ)⟩ : MotionState).last_request_time = 1 := by
  have hd : haversine_distance (((481173 / 10000 : ℚ) : ℝ), ((691 / 60 : ℚ) : ℝ))
      (((481173 / 10000 : ℚ) : ℝ), ((691 / 60 : ℚ) : ℝ)) = 0 :=
    haversine_distance_self _
  have hng : ¬(haversine_distance (((481173 / 10000 : ℚ) : ℝ), ((691 / 60 : ℚ) : ℝ))
      (((481173 / 10000 : ℚ) : ℝ), ((691 / 60 : ℚ) : ℝ)) > ((0 : ℤ) : ℝ)) := by
    rw [hd]; norm_num
  have ht : (1 : ℝ) - 0 ≥ ((0 : ℤ) : ℝ) := by norm_num
  have h : loopStep ⟨"radio1", "token1", 0, 0, 0⟩ ⟨(481173 / 10000, 691 / 60), 0⟩ data0
      (some (0, 0)) 1 AttemptOutcome.success =
      .ok (⟨(481173 / 10000, 691 / 60), 1⟩,
        .dispatched ⟨⌊(0 : ℝ)⌋, ⌊(0 : ℝ)⌋, "radio1", VALID_FOR_DURATION, "token1"⟩ true) := by
    rw [loopStep_accepted_eq ⟨"radio1", "token1", 0, 0, 0⟩ ⟨(481173 / 10000, 691 / 60), 0⟩
      data0 (0, 0) 1 AttemptOutcome.success (481173 / 10000) (691 / 60) (9 / 10)
      parse_filter_data0 (by norm_num)]
    dsimp only
    rw [if_pos (Or.inr ⟨hng, ht⟩),
      if_pos (show (make_api_request_with_retry [AttemptOutcome.success]).result = true
        from rfl)]
  exact C10_predispatch_timestamp ⟨"radio1", "token1", 0, 0, 0⟩
    ⟨(481173 / 10000, 691 / 60), 0⟩ data0 (some (0, 0)) 1 AttemptOutcome.success
    ⟨(481173 / 10000, 691 / 60), 1⟩
    ⟨⌊(0 : ℝ)⌋, ⌊(0 : ℝ)⌋, "radio1", VALID_FOR_DURATION, "token1"⟩ h

/-! ### Prefix-based sentence acceptance (C9) -/

/-- Splitting on a separator that does not occur returns the whole list as
the single piece. -/
theorem pySplit_no_sep (sep : Char) (cs : List Char) (h : sep ∉ cs) :
    pySplit sep cs = [cs] := by
  induction cs with
  | nil => rfl
  | cons c rest ih =>
    have hc : c ≠ sep := fun hh => h (by rw [← hh]; exact List.mem_cons_self c rest)
    have hr : sep ∉ rest := fun hh => h (List.mem_cons_of_mem c hh)
    simp only [pySplit]
    rw [ih hr]
    dsimp only
    rw [if_neg hc]

/-- C9: acceptance is by 6-character prefix, not exact sentence-type match:
any line whose first six characters are `"$GPGGA"` is selected by
`filter_nmea_sentence` and sent to the supported-sentence field parser by
`parse_nmea_sentence`, even when the type identifier continues (e.g.
`"$GPGGAX,…"`). -/
theorem C9_prefix_acceptance (s : String)
    (h6 : s.toList.take 6 = "$GPGGA".toList)
    (hstrip : pyStripList s.toList = s.toList)
    (hnl : '\n' ∉ s.toList) :
    filter_nmea_sentence s = s ∧ parse_nmea_sentence s = parseGPGGA s.toList := by
  have hsw : pyStartsWithList s.toList gpggaTag = true := by
    simp only [pyStartsWithList, gpggaTag]
    rw [show "$GPGGA".toList.length = 6 from rfl, h6]
    decide
  have hne : s.toList ≠ [] := by
    intro h0
    rw [h0] at h6
    exact absurd h6 (by decide)
  refine ⟨?_, parse_nmea_sentence_eq_parseGPGGA s hne hsw⟩
  simp only [filter_nmea_sentence, filterList, hstrip]
  rw [pySplit_no_sep '\n' s.toList hnl]
  simp only [List.find?, hsw, Option.getD_some]
  rfl

/-- Witness for C9: a `"$GPGGAX,…"` line is selected and parsed as
supported. -/
theorem C9_prefix_acceptance_witness :
    filter_nmea_sentence "$GPGGAX,4807.038,N,01131.000,E,1,08,0.9" =
        "$GPGGAX,4807.038,N,01131.000,E,1,08,0.9" ∧
      parse_nmea_sentence "$GPGGAX,4807.038,N,01131.000,E,1,08,0.9" =
        parseGPGGA "$GPGGAX,4807.038,N,01131.000,E,1,08,0.9".toList :=
  C9_prefix_acceptance "$GPGGAX,4807.038,N,01131.000,E,1,08,0.9"
    (by decide) (by decide) (by decide)

/-! ### Hemisphere signs (C7) -/

/-- Characters surviving `str.strip()` come from the original string. -/
theorem mem_pyStripList {cs : List Char} {a : Char} (ha : a ∈ pyStripList cs) :
    a ∈ cs := by
  unfold pyStripList at ha
  rw [List.mem_reverse] at ha
  have h2 := (List.dropWhile_sublist pyWhitespaceChar).subset ha
  rw [List.mem_reverse] at h2
  exact (List.dropWhile_sublist pyWhitespaceChar).subset h2

/-- A successfully parsed unsigned mantissa is nonnegative. -/
theorem pyFloatCore_one_nonneg (u : List Char) (q : ℚ)
    (h : pyFloatCore 1 u = some q) : 0 ≤ q := by
  simp only [pyFloatCore] at h
  split at h
  · split at h
    · exact absurd h (by simp)
    · simp only [Option.some.injEq] at h
      rw [← h]
      positivity
  · split at h
    · split at h
      · simp only [Option.some.injEq] at h
        rw [← h]
        positivity
      · exact absurd h (by simp)
    · exact absurd h (by simp)

/-- `coordFieldOK` passes to any subset of the characters. -/
theorem coordFieldOK_subset {l1 l2 : List Char} (hsub : l1 ⊆ l2)
    (h : coordFieldOK l2 = true) : coordFieldOK l1 = true := by
  simp only [coordFieldOK, List.all_eq_true] at h ⊢
  exact fun c hc => h c (hsub hc)

/-- The modelled `float` on a field of digits and dots never returns a
negative value. -/
theorem pyFloatList_nonneg (cs : List Char) (hcs : coordFieldOK cs = true)
    (q : ℚ) (h : pyFloatList cs = some q) : 0 ≤ q := by
  have hcs' : ∀ x, x ∈ cs → (x.isDigit || x = '.') = true := List.all_eq_true.mp hcs
  simp only [pyFloatList] at h
  split at h
  · exact pyFloatCore_one_nonneg _ _ h
  · next c rest hst =>
    split at h
    · next hc =>
      subst hc
      have hbad := hcs' _ (mem_pyStripList (hst ▸ List.mem_cons_self _ rest))
      exact absurd hbad (by decide)
    · split at h
      · next hc =>
        subst hc
        have hbad := hcs' _ (mem_pyStripList (hst ▸ List.mem_cons_self _ rest))
        exact absurd hbad (by decide)
      · exact pyFloatCore_one_nonneg _ _ h

/-- C7 (amended): for every GPGGA-shaped sentence, an `"S"` latitude
hemisphere yields a nonpositive latitude and any other hemisphere field — in
particular `"N"` — a nonnegative one; likewise `"W"`/nonpositive and
otherwise — in particular `"E"` — nonnegative for the longitude. -/
theorem C7_hemisphere_sign (s : String) (latitude longitude accuracy : ℚ)
    (hv : validGPGGAShape s = true)
    (hp : parse_nmea_sentence s = some (latitude, longitude, accuracy)) :
    ((pySplit ',' s.toList)[3]?.getD [] = ['S'] → latitude ≤ 0) ∧
    ((pySplit ',' s.toList)[3]?.getD [] ≠ ['S'] → 0 ≤ latitude) ∧
    ((pySplit ',' s.toList)[5]?.getD [] = ['W'] → longitude ≤ 0) ∧
    ((pySplit ',' s.toList)[5]?.getD [] ≠ ['W'] → 0 ≤ longitude) := by
  simp only [parse_nmea_sentence] at hp
  split at hp
  · exact absurd hp (by simp)
  · split at hp
    · simp only [parseGPGGA] at hp
      split at hp
      · next f2 f3 f4 f5 f8 h2 h3 h4 h5 h8 =>
        split at hp
        · next latDeg latMin lonDeg lonMin acc0 g1 g2 g3 g4 g5 =>
          simp only [Option.some.injEq, Prod.mk.injEq] at hp
          obtain ⟨hlat, hlon, hacc⟩ := hp
          simp only [validGPGGAShape, Bool.and_eq_true] at hv
          obtain ⟨⟨hsome, hok2⟩, hok4⟩ := hv
          rw [h2] at hok2
          rw [h4] at hok4
          simp only [Option.getD_some] at hok2 hok4
          have hd1 : 0 ≤ latDeg :=
            pyFloatList_nonneg _ (coordFieldOK_subset (List.take_subset 2 f2) hok2) _ g1
          have hd2 : 0 ≤ latMin :=
            pyFloatList_nonneg _ (coordFieldOK_subset (List.drop_subset 2 f2) hok2) _ g2
          have hd3 : 0 ≤ lonDeg :=
            pyFloatList_nonneg _ (coordFieldOK_subset (List.take_subset 3 f4) hok4) _ g3
          have hd4 : 0 ≤ lonMin :=
            pyFloatList_nonneg _ (coordFieldOK_subset (List.drop_subset 3 f4) hok4) _ g4
          have hbaseLat : 0 ≤ latDeg + latMin / 60 := by positivity
          have hbaseLon : 0 ≤ lonDeg + lonMin / 60 := by positivity
          rw [h3, h5]
          simp only [Option.getD_some]
          refine ⟨?_, ?_, ?_, ?_⟩
          · intro hS
            rw [← hlat, if_pos hS]
            exact neg_nonpos.mpr hbaseLat
          · intro hNS
            rw [← hlat, if_neg hNS]
            exact hbaseLat
          · intro hW
            rw [← hlon, if_pos hW]
            exact neg_nonpos.mpr hbaseLon
          · intro hNW
            rw [← hlon, if_neg hNW]
            exact hbaseLon
        all_goals exact absurd hp (by simp)
      all_goals exact absurd hp (by simp)
    · exact absurd hp (by simp)

/-- An equator-crossing GPGGA sentence: zero magnitude with southern and
western hemisphere markers. -/
def s0c : String := "$GPGGA,0,0000.0000,S,00000.0000,W,1,08,1.0"

theorem parse_s0c : parse_nmea_sentence s0c = some (0, 0, 1) := by
  have g1 : pyFloatList ("0000.0000".toList.take 2) = some 0 :=
    pyFloatList_int_eval _ '0' ['0'] ['0', '0'] 0 0 (by decide) (by decide) (by decide)
      (by decide) (by decide) (by decide) (by decide) (by norm_num)
  have g2 : pyFloatList ("0000.0000".toList.drop 2) = some 0 :=
    pyFloatList_frac_eval _ '0' "0.0000".toList ['0', '0'] ['0', '0', '0', '0'] 0 0 4 0
      (by decide) (by decide) (by decide) (by decide) (by decide) (by decide) (by decide)
      (by decide) (by decide) (by norm_num)
  have g3 : pyFloatList ("00000.0000".toList.take 3) = some 0 :=
    pyFloatList_int_eval _ '0' "00".toList ['0', '0', '0'] 0 0 (by decide) (by decide)
      (by decide) (by decide) (by decide) (by decide) (by decide) (by norm_num)
  have g4 : pyFloatList ("00000.0000".toList.drop 3) = some 0 :=
    pyFloatList_frac_eval _ '0' "0.0000".toList ['0', '0'] ['0', '0', '0', '0'] 0 0 4 0
      (by decide) (by decide) (by decide) (by decide) (by decide) (by decide) (by decide)
      (by decide) (by decide) (by norm_num)
  have g5 : pyFloatList "1.0".toList = some 1 :=
    pyFloatList_frac_eval _ '1' ".0".toList ['1'] ['0'] 1 0 1 1 (by decide) (by decide)
      (by decide) (by decide) (by decide) (by decide) (by decide) (by decide) (by decide)
      (by norm_num)
  rw [parse_nmea_sentence_eq_parseGPGGA s0c (by decide) (by decide),
    parseGPGGA_fields s0c.toList "0000.0000".toList "S".toList "00000.0000".toList
      "W".toList "1.0".toList 0 0 0 0 1
      (by decide) (by decide) (by decide) (by decide) (by decide) g1 g2 g3 g4 g5]
  norm_num

/-- Counterexample to C7 as stated: `s0c` is GPGGA-shaped, its hemisphere
fields are `"S"` and `"W"`, yet the parsed latitude and longitude are 0 —
not strictly negative. -/
theorem C7_hemisphere_sign_counterexample :
    validGPGGAShape s0c = true ∧
    (pySplit ',' s0c.toList)[3]?.getD [] = ['S'] ∧
    (pySplit ',' s0c.toList)[5]?.getD [] = ['W'] ∧
    parse_nmea_sentence s0c = some (0, 0, 1) ∧
    ¬((0 : ℚ) < 0) := by
  refine ⟨?_, by decide, by decide, parse_s0c, by norm_num⟩
  simp only [validGPGGAShape]
  rw [parse_s0c]
  decide

/-- A southern/western sentence with nonzero coordinates. -/
def sW : String := "$GPGGA,0,4807.038,S,01131.000,W,1,08,1.0"

theorem parse_sW :
    parse_nmea_sentence sW = some (-(481173 / 10000), -(691 / 60), 1) := by
  have g1 : pyFloatList ("4807.038".toList.take 2) = some 48 :=
    pyFloatList_int_eval _ '4' ['8'] ['4', '8'] 48 48 (by decide) (by decide) (by decide)
      (by decide) (by decide) (by decide) (by decide) (by norm_num)
  have g2 : pyFloatList ("4807.038".toList.drop 2) = some (7038 / 1000) :=
    pyFloatList_frac_eval _ '0' "7.038".toList ['0', '7'] ['0', '3', '8'] 7 38 3 (7038 / 1000)
      (by decide) (by decide) (by decide) (by decide) (by decide) (by decide) (by decide)
      (by decide) (by decide) (by norm_num)
  have g3 : pyFloatList ("01131.000".toList.take 3) = some 11 :=
    pyFloatList_int_eval _ '0' "11".toList ['0', '1', '1'] 11 11 (by decide) (by decide)
      (by decide) (by decide) (by decide) (by decide) (by decide) (by norm_num)
  have g4 : pyFloatList ("01131.000".toList.drop 3) = some 31 :=
    pyFloatList_frac_eval _ '3' "1.000".toList ['3', '1'] ['0', '0', '0'] 31 0 3 31
      (by decide) (by decide) (by decide) (by decide) (by decide) (by decide) (by decide)
      (by decide) (by decide) (by norm_num)
  have g5 : pyFloatList "1.0".toList = some 1 :=
    pyFloatList_frac_eval _ '1' ".0".toList ['1'] ['0'] 1 0 1 1 (by decide) (by decide)
      (by decide) (by decide) (by decide) (by decide) (by decide) (by decide) (by decide)
      (by norm_num)
  rw [parse_nmea_sentence_eq_parseGPGGA sW (by decide) (by decide),
    parseGPGGA_fields sW.toList "4807.038".toList "S".toList "01131.000".toList
      "W".toList "1.0".toList 48 (7038 / 1000) 11 31 1
      (by decide) (by decide) (by decide) (by decide) (by decide) g1 g2 g3 g4 g5]
  norm_num

/-- Witness for the amended C7 at a southern/western fix. -/
theorem C7_hemisphere_sign_witness :
    ((pySplit ',' sW.toList)[3]?.getD [] = ['S'] → -(481173 / 10000 : ℚ) ≤ 0) ∧
    ((pySplit ',' sW.toList)[3]?.getD [] ≠ ['S'] → 0 ≤ -(481173 / 10000 : ℚ)) ∧
    ((pySplit ',' sW.toList)[5]?.getD [] = ['W'] → -(691 / 60 : ℚ) ≤ 0) ∧
    ((pySplit ',' sW.toList)[5]?.getD [] ≠ ['W'] → 0 ≤ -(691 / 60 : ℚ)) :=
  C7_hemisphere_sign sW (-(481173 / 10000)) (-(691 / 60)) 1
    (by simp only [validGPGGAShape]; rw [parse_sW]; decide) parse_sW

end MRMap
